import Mathlib

/-!
Verification of `flight/Modules/Sensors/simulated/sensors.c` (TauLabs
simulated sensors module).

The module consists of three C functions:

* `SensorsInitialize` — calls the UAVObject registration routines for six
  object types and returns 0;
* `SensorsStart` — spawns the `SensorsTask` thread, registers it with the
  task monitor and the watchdog, and returns 0;
* `SensorsTask` — clears the sensors alarm, seeds Home Location once, then
  loops forever publishing constant sensor snapshots.

The shallow embedding below models the UAVObject shared store as a record of
the seven object instances touched by the module.  Numeric fields are C
floats in the source; every value the module writes is a small integer and
the only arithmetic is exact integer addition, so fields are modelled as
`Int`.  Each UAVObject record additionally carries an `otherFields`
component standing for any fields of the generated C struct that this
module never touches (the structs come from generated code outside this
module); read-modify-write via `Get`/`Set` preserves it.  Side effects of
one loop iteration are captured both as the post-state and as an ordered
event trace.
-/

/-- `AccelsData` (accels.h): x, y, z specific force and temperature. -/
structure AccelsData where
  x : Int
  y : Int
  z : Int
  temperature : Int
deriving DecidableEq

/-- `GyrosData` (gyros.h): x, y, z angular rates. -/
structure GyrosData where
  x : Int
  y : Int
  z : Int
deriving DecidableEq

/-- `GyrosBiasData` (gyrosbias.h): x, y, z angular-rate offsets. -/
structure GyrosBiasData where
  x : Int
  y : Int
  z : Int
deriving DecidableEq

/-- `BaroAltitudeData` (baroaltitude.h): altitude plus fields this module
does not touch. -/
structure BaroAltitudeData where
  Altitude : Int
  otherFields : Int
deriving DecidableEq

/-- `GPSPositionData` (gpsposition.h): latitude, longitude, altitude plus
fields this module does not touch. -/
structure GPSPositionData where
  Latitude : Int
  Longitude : Int
  Altitude : Int
  otherFields : Int
deriving DecidableEq

/-- `HomeLocationData` (homelocation.h): reference point, magnetic field
vector `Be[0..2]`, the `Set` validity flag, plus fields this module does
not touch.  `HOMELOCATION_SET_TRUE` is modelled as `true`. -/
structure HomeLocationData where
  Latitude : Int
  Longitude : Int
  Altitude : Int
  Be0 : Int
  Be1 : Int
  Be2 : Int
  Set : Bool
  otherFields : Int
deriving DecidableEq

/-- `MagnetometerData` (magnetometer.h): x, y, z local magnetic field. -/
structure MagnetometerData where
  x : Int
  y : Int
  z : Int
deriving DecidableEq

/-- The shared UAVObject store: one instance per object type touched by the
module.  Each `Get`/`Set` call on a single object is atomic. -/
structure UAVState where
  accels : AccelsData
  gyros : GyrosData
  gyrosBias : GyrosBiasData
  baroAltitude : BaroAltitudeData
  gpsPosition : GPSPositionData
  homeLocation : HomeLocationData
  magnetometer : MagnetometerData
deriving DecidableEq

/-- Observable events emitted by `SensorsTask`: one per `Set` call on a
shared object, plus the alarm clear, the watchdog refresh and the
end-of-cycle delay (argument in milliseconds). -/
inductive SensorEvent where
  | alarmsClear
  | homeSet (d : HomeLocationData)
  | accelsSet (d : AccelsData)
  | gyrosSet (d : GyrosData)
  | baroSet (d : BaroAltitudeData)
  | gpsSet (d : GPSPositionData)
  | magSet (d : MagnetometerData)
  | wdgUpdate
  | taskDelay (ms : Nat)
deriving DecidableEq

/-- `SENSOR_PERIOD` constant from sensors.c line 69 (unused by the loop's
delay, which hard-codes 20 ms). -/
def SENSOR_PERIOD : Nat := 2

/-- `STACK_SIZE_BYTES` constant from sensors.c line 67. -/
def STACK_SIZE_BYTES : Nat := 1540

/-- The delay passed to `vTaskDelay` at the end of each loop iteration,
expressed in milliseconds: the source passes `20 / portTICK_RATE_MS` ticks,
i.e. 20 ms of relative delay. -/
def sensorDelayMs : Nat := 20

/-- The Home Location seeding performed once by `SensorsTask` before the
main loop (sensors.c lines 122-131): the record is read, Latitude,
Longitude, Altitude, Be[0..2] and Set are overwritten, and the record is
written back. -/
def seedHomeLocation (h : HomeLocationData) : HomeLocationData :=
  { h with
      Latitude := 0
      Longitude := 0
      Altitude := 0
      Be0 := 26000
      Be1 := 400
      Be2 := 40000
      Set := true }

/-- Events of the one-time startup phase of `SensorsTask` (sensors.c lines
120-131): clear the sensors alarm, then seed Home Location. -/
def sensorsStartupEvents (s : UAVState) : List SensorEvent :=
  [SensorEvent.alarmsClear, SensorEvent.homeSet (seedHomeLocation s.homeLocation)]

/-- Shared-state effect of the startup phase of `SensorsTask`. -/
def sensorsStartupState (s : UAVState) : UAVState :=
  { s with homeLocation := seedHomeLocation s.homeLocation }

/-- One iteration of the main loop body of `SensorsTask` (sensors.c lines
135-183), returning the ordered event trace of the iteration and the
updated shared state.  Mirrors the source: Accels built from constants and
set (no get); Gyros built from constants, bias-corrected from the current
GyrosBias, and set; BaroAltitude get, altitude overwritten, set;
GPSPosition get, lat/long/altitude zeroed, set; Magnetometer constants set;
watchdog flag update; `vTaskDelay(20 / portTICK_RATE_MS)`. -/
def sensorsCycleStep (s : UAVState) : List SensorEvent × UAVState :=
  let accelsData : AccelsData := { x := 0, y := -1, z := -8, temperature := 0 }
  let s1 : UAVState := { s with accels := accelsData }
  let gyrosData0 : GyrosData := { x := 2, y := 0, z := 1 }
  let gyrosBias : GyrosBiasData := s1.gyrosBias
  let gyrosData : GyrosData :=
    { x := gyrosData0.x + gyrosBias.x
      y := gyrosData0.y + gyrosBias.y
      z := gyrosData0.z + gyrosBias.z }
  let s2 : UAVState := { s1 with gyros := gyrosData }
  let baroAltitude : BaroAltitudeData := { s2.baroAltitude with Altitude := 1 }
  let s3 : UAVState := { s2 with baroAltitude := baroAltitude }
  let gpsPosition : GPSPositionData :=
    { s3.gpsPosition with Latitude := 0, Longitude := 0, Altitude := 0 }
  let s4 : UAVState := { s3 with gpsPosition := gpsPosition }
  let mag : MagnetometerData := { x := 400, y := 0, z := 800 }
  let s5 : UAVState := { s4 with magnetometer := mag }
  ([SensorEvent.accelsSet accelsData,
    SensorEvent.gyrosSet gyrosData,
    SensorEvent.baroSet baroAltitude,
    SensorEvent.gpsSet gpsPosition,
    SensorEvent.magSet mag,
    SensorEvent.wdgUpdate,
    SensorEvent.taskDelay sensorDelayMs], s5)

/-- Shared-state effect of one loop iteration. -/
def sensorsCycle (s : UAVState) : UAVState :=
  (sensorsCycleStep s).2

/-- Event trace of one loop iteration. -/
def sensorsCycleEvents (s : UAVState) : List SensorEvent :=
  (sensorsCycleStep s).1

/-- `n` consecutive iterations of the main loop, concatenating their event
traces. -/
def sensorsLoop : Nat → UAVState → List SensorEvent × UAVState
  | 0, s => ([], s)
  | n + 1, s =>
      let c := sensorsCycleStep s
      let rest := sensorsLoop n c.2
      (c.1 ++ rest.1, rest.2)

/-- A run of `SensorsTask` observed for `n` completed loop iterations:
startup phase followed by `n` cycles. -/
def sensorsTaskRun (n : Nat) (s : UAVState) : List SensorEvent × UAVState :=
  let rest := sensorsLoop n (sensorsStartupState s)
  (sensorsStartupEvents s ++ rest.1, rest.2)

/-- Recognizer for Home Location writes in an event trace. -/
def isHomeSet : SensorEvent → Bool
  | SensorEvent.homeSet _ => true
  | _ => false

/-- Recognizer for Magnetometer publishes in an event trace. -/
def isMagSet : SensorEvent → Bool
  | SensorEvent.magSet _ => true
  | _ => false

/-- Recognizer for watchdog refreshes in an event trace. -/
def isWdgUpdate : SensorEvent → Bool
  | SensorEvent.wdgUpdate => true
  | _ => false

/-- Timed semantics of the main loop.  `timeMs` is the clock in
milliseconds; `workMs` is the time one iteration's publishes take.
`vTaskDelay` is a relative delay: it suspends for `sensorDelayMs`
milliseconds measured from the moment it is called (the end of the
iteration's work), so each iteration advances the clock by
`workMs + sensorDelayMs`. -/
structure TimedState where
  timeMs : Nat
  st : UAVState
deriving DecidableEq

/-- One loop iteration under the timed semantics. -/
def sensorsTimedCycle (workMs : Nat) (ts : TimedState) : TimedState :=
  { timeMs := ts.timeMs + workMs + sensorDelayMs, st := sensorsCycle ts.st }

/-- `n` loop iterations under the timed semantics. -/
def sensorsTimedRun (workMs : Nat) : Nat → TimedState → TimedState
  | 0, ts => ts
  | n + 1, ts => sensorsTimedRun workMs n (sensorsTimedCycle workMs ts)

/-- The spec's claimed timing, stated from its words: the task suspends
until the next boundary of a fixed 20-time-unit period, so cycle `k`
begins at `t0 + 20 * k`. -/
def specPeriodBoundaryStart (t0 k : Nat) : Nat := t0 + 20 * k

/-- UAVObject types whose registration routine `SensorsInitialize` could
call.  The last two are listed because the spec claims they are
registered. -/
inductive RecordId where
  | accels
  | baroAltitude
  | gyros
  | gyrosBias
  | magnetometer
  | revoCalibration
  | gpsPosition
  | homeLocation
deriving DecidableEq

/-- The registration calls `SensorsInitialize` makes, in source order
(sensors.c lines 87-92). -/
def sensorsInitCalls : List RecordId :=
  [RecordId.accels, RecordId.baroAltitude, RecordId.gyros,
   RecordId.gyrosBias, RecordId.magnetometer, RecordId.revoCalibration]

/-- `SensorsInitialize` (sensors.c lines 85-95).  `store r` is the result
code the state store returns for registering object `r` (0 on success, -1
on failure, per the generated `XxxInitialize` contracts).  The C code
discards every result and returns 0 unconditionally; the embedding records
the calls made with the results the store produced, paired with the value
`SensorsInitialize` returns. -/
def SensorsInit (store : RecordId → Int) : List (RecordId × Int) × Int :=
  (sensorsInitCalls.map (fun r => (r, store r)), 0)

/-- Observable actions of `SensorsStart`. -/
inductive StartEvent where
  | xTaskCreate (name : String) (stackWords : Nat)
  | taskMonitorAdd
  | wdgRegisterFlag
deriving DecidableEq

/-- `SensorsStart` (sensors.c lines 101-109).  `spawnOk` is whether
`xTaskCreate` succeeded; the C code ignores it, unconditionally registers
the task handle with the task monitor and registers the watchdog flag, and
returns 0. -/
def SensorsStart (_spawnOk : Bool) : List StartEvent × Int :=
  ([StartEvent.xTaskCreate "Sensors" (STACK_SIZE_BYTES / 4),
    StartEvent.taskMonitorAdd,
    StartEvent.wdgRegisterFlag], 0)

/-- A concrete all-zero shared state, used for concrete evaluations. -/
def zeroUAVState : UAVState :=
  { accels := { x := 0, y := 0, z := 0, temperature := 0 }
    gyros := { x := 0, y := 0, z := 0 }
    gyrosBias := { x := 0, y := 0, z := 0 }
    baroAltitude := { Altitude := 0, otherFields := 0 }
    gpsPosition := { Latitude := 0, Longitude := 0, Altitude := 0, otherFields := 0 }
    homeLocation :=
      { Latitude := 0, Longitude := 0, Altitude := 0,
        Be0 := 0, Be1 := 0, Be2 := 0, Set := false, otherFields := 0 }
    magnetometer := { x := 0, y := 0, z := 0 } }

/-- The zero state with Gyro Bias pre-seeded to (5, 5, 5). -/
def biasFiveState : UAVState :=
  { zeroUAVState with gyrosBias := { x := 5, y := 5, z := 5 } }

/-! ## Helper lemmas -/

/-- The event trace of one loop iteration, written out. -/
lemma sensorsCycleEvents_eq (s : UAVState) :
    sensorsCycleEvents s =
      [SensorEvent.accelsSet { x := 0, y := -1, z := -8, temperature := 0 },
       SensorEvent.gyrosSet
         { x := 2 + s.gyrosBias.x, y := 0 + s.gyrosBias.y, z := 1 + s.gyrosBias.z },
       SensorEvent.baroSet { s.baroAltitude with Altitude := 1 },
       SensorEvent.gpsSet
         { s.gpsPosition with Latitude := 0, Longitude := 0, Altitude := 0 },
       SensorEvent.magSet { x := 400, y := 0, z := 800 },
       SensorEvent.wdgUpdate,
       SensorEvent.taskDelay sensorDelayMs] := rfl

/-- No loop iteration writes Home Location. -/
lemma sensorsCycleStep_filter_homeSet (s : UAVState) :
    ((sensorsCycleStep s).1.filter isHomeSet) = [] := rfl

/-- Each loop iteration publishes Magnetometer exactly once, with the
constant value (400, 0, 800). -/
lemma sensorsCycleStep_filter_magSet (s : UAVState) :
    ((sensorsCycleStep s).1.filter isMagSet)
      = [SensorEvent.magSet { x := 400, y := 0, z := 800 }] := rfl

/-- One loop iteration leaves Home Location untouched. -/
lemma sensorsCycleStep_homeLocation (s : UAVState) :
    (sensorsCycleStep s).2.homeLocation = s.homeLocation := rfl

/-- No iteration of the main loop ever writes Home Location. -/
lemma sensorsLoop_filter_homeSet (n : Nat) :
    ∀ s : UAVState, ((sensorsLoop n s).1.filter isHomeSet) = [] := by
  induction n with
  | zero => intro s; rfl
  | succ n ih =>
      intro s
      show (((sensorsCycleStep s).1 ++ (sensorsLoop n (sensorsCycleStep s).2).1).filter
        isHomeSet) = []
      rw [List.filter_append, sensorsCycleStep_filter_homeSet, ih]
      rfl

/-- `n` iterations of the main loop publish Magnetometer exactly `n`
times, each time with the constant value (400, 0, 800). -/
lemma sensorsLoop_filter_magSet (n : Nat) :
    ∀ s : UAVState, ((sensorsLoop n s).1.filter isMagSet)
      = List.replicate n (SensorEvent.magSet { x := 400, y := 0, z := 800 }) := by
  induction n with
  | zero => intro s; rfl
  | succ n ih =>
      intro s
      show (((sensorsCycleStep s).1 ++ (sensorsLoop n (sensorsCycleStep s).2).1).filter
        isMagSet) = _
      rw [List.filter_append, sensorsCycleStep_filter_magSet, ih, List.replicate_succ]
      rfl

/-- The main loop never changes Home Location. -/
lemma sensorsLoop_homeLocation (n : Nat) :
    ∀ s : UAVState, (sensorsLoop n s).2.homeLocation = s.homeLocation := by
  induction n with
  | zero => intro s; rfl
  | succ n ih =>
      intro s
      show (sensorsLoop n (sensorsCycleStep s).2).2.homeLocation = s.homeLocation
      rw [ih, sensorsCycleStep_homeLocation]

/-- Closed form for the clock under the timed loop semantics: each
iteration advances the clock by its work time plus the relative delay. -/
lemma sensorsTimedRun_timeMs (w : Nat) (n : Nat) :
    ∀ ts : TimedState,
      (sensorsTimedRun w n ts).timeMs = ts.timeMs + n * (w + sensorDelayMs) := by
  induction n with
  | zero => intro ts; simp [sensorsTimedRun]
  | succ n ih =>
      intro ts
      show (sensorsTimedRun w n (sensorsTimedCycle w ts)).timeMs = _
      rw [ih]
      show ts.timeMs + w + sensorDelayMs + n * (w + sensorDelayMs) = _
      ring

/-! ## Claim theorems -/

/-- C1: every cycle publishes Gyroscope equal to
(2 + bias.x, 0 + bias.y, 1 + bias.z) componentwise, where bias is the
Gyro Bias value held at that cycle's read; in particular, a bias of
(5, 5, 5) yields a published reading of (7, 5, 6). -/
theorem gyros_published_bias_corrected (s : UAVState) :
    (sensorsCycle s).gyros =
      { x := 2 + s.gyrosBias.x, y := 0 + s.gyrosBias.y, z := 1 + s.gyrosBias.z } ∧
    SensorEvent.gyrosSet
        { x := 2 + s.gyrosBias.x, y := 0 + s.gyrosBias.y, z := 1 + s.gyrosBias.z }
      ∈ sensorsCycleEvents s ∧
    (s.gyrosBias = { x := 5, y := 5, z := 5 } →
      (sensorsCycle s).gyros = { x := 7, y := 5, z := 6 }) := by
  refine ⟨rfl, ?_, ?_⟩
  · rw [sensorsCycleEvents_eq]
    exact List.mem_cons_of_mem _ (List.mem_cons_self _ _)
  · intro h
    have hg : (sensorsCycle s).gyros =
        { x := 2 + s.gyrosBias.x, y := 0 + s.gyrosBias.y, z := 1 + s.gyrosBias.z } := rfl
    rw [hg, h]
    decide

/-- C1 witness: instantiated at the all-zero state with Gyro Bias
pre-seeded to (5, 5, 5), the published Gyroscope reading is (7, 5, 6). -/
theorem gyros_published_bias_corrected_witness :
    biasFiveState.gyrosBias = { x := 5, y := 5, z := 5 } ∧
    (sensorsCycle biasFiveState).gyros = { x := 7, y := 5, z := 6 } :=
  ⟨rfl, (gyros_published_bias_corrected biasFiveState).2.2 rfl⟩

/-- C2: over any run of the task, Home Location is written exactly once —
during the startup phase, never inside the loop — and that single write
sets latitude 0, longitude 0, altitude 0, magnetic field
(26000, 400, 40000) and the validity flag to true, regardless of the
record's prior contents. -/
theorem homeLocation_written_once (n : Nat) (s : UAVState) :
    ((sensorsTaskRun n s).1.filter isHomeSet
        = [SensorEvent.homeSet (seedHomeLocation s.homeLocation)]) ∧
    ((sensorsLoop n (sensorsStartupState s)).1.filter isHomeSet = []) ∧
    (seedHomeLocation s.homeLocation).Latitude = 0 ∧
    (seedHomeLocation s.homeLocation).Longitude = 0 ∧
    (seedHomeLocation s.homeLocation).Altitude = 0 ∧
    (seedHomeLocation s.homeLocation).Be0 = 26000 ∧
    (seedHomeLocation s.homeLocation).Be1 = 400 ∧
    (seedHomeLocation s.homeLocation).Be2 = 40000 ∧
    (seedHomeLocation s.homeLocation).Set = true := by
  refine ⟨?_, sensorsLoop_filter_homeSet n _, rfl, rfl, rfl, rfl, rfl, rfl, rfl⟩
  show ((sensorsStartupEvents s
      ++ (sensorsLoop n (sensorsStartupState s)).1).filter isHomeSet) = _
  rw [List.filter_append, sensorsLoop_filter_homeSet]
  rfl

/-- C3 counterexample: with a store on which every registration fails,
`SensorsInitialize` still returns 0 (success, per its own documented
contract "0 on success or -1 if initialisation failed"), and neither GPS
Position nor Home Location is among the records it registers — the sixth
registered record is RevoCalibration instead. -/
theorem sensorsInit_ignores_failures_counterexample :
    (SensorsInit (fun _ => -1)).2 = 0 ∧
    RecordId.gpsPosition ∉ (SensorsInit (fun _ => -1)).1.map Prod.fst ∧
    RecordId.homeLocation ∉ (SensorsInit (fun _ => -1)).1.map Prod.fst ∧
    RecordId.revoCalibration ∈ (SensorsInit (fun _ => -1)).1.map Prod.fst := by
  decide

/-- C3 (amended): `SensorsInitialize` calls the state-store registration
routines for exactly Accelerometer, Barometric Altitude, Gyroscope,
Gyro Bias, Magnetometer and RevoCalibration — not GPS Position and not
Home Location — discards every result, and returns 0 (success)
unconditionally, even when a registration fails. -/
theorem sensorsInit_registers_and_returns_zero (store : RecordId → Int) :
    (SensorsInit store).2 = 0 ∧
    (SensorsInit store).1.map Prod.fst = sensorsInitCalls ∧
    RecordId.gpsPosition ∉ sensorsInitCalls ∧
    RecordId.homeLocation ∉ sensorsInitCalls := by
  refine ⟨rfl, ?_, by decide, by decide⟩
  simp [SensorsInit, List.map_map, Function.comp, sensorsInitCalls]

/-- C4: each cycle sets Barometric Altitude's altitude field to 1 and GPS
Position's latitude, longitude and altitude fields to 0, while every other
field of those two records is read back and written unchanged. -/
theorem baro_gps_reset_preserve_other_fields (s : UAVState) :
    (sensorsCycle s).baroAltitude.Altitude = 1 ∧
    (sensorsCycle s).baroAltitude.otherFields = s.baroAltitude.otherFields ∧
    (sensorsCycle s).gpsPosition.Latitude = 0 ∧
    (sensorsCycle s).gpsPosition.Longitude = 0 ∧
    (sensorsCycle s).gpsPosition.Altitude = 0 ∧
    (sensorsCycle s).gpsPosition.otherFields = s.gpsPosition.otherFields :=
  ⟨rfl, rfl, rfl, rfl, rfl, rfl⟩

/-- C5: every cycle publishes the Accelerometer record equal to the
constant tuple x = 0, y = -1, z = -8, temperature = 0, independent of the
shared state. -/
theorem accels_published_constant (s : UAVState) :
    (sensorsCycle s).accels = { x := 0, y := -1, z := -8, temperature := 0 } ∧
    SensorEvent.accelsSet { x := 0, y := -1, z := -8, temperature := 0 }
      ∈ sensorsCycleEvents s := by
  refine ⟨rfl, ?_⟩
  rw [sensorsCycleEvents_eq]
  exact List.mem_cons_self _ _

/-- C6: a run of `n` completed cycles publishes exactly `n` Magnetometer
snapshots, each equal to (400, 0, 800), and Home Location keeps its
startup-seeded value throughout — it is unchanged after the first cycle. -/
theorem mag_published_constant_every_cycle (n : Nat) (s : UAVState) :
    ((sensorsTaskRun n s).1.filter isMagSet
        = List.replicate n (SensorEvent.magSet { x := 400, y := 0, z := 800 })) ∧
    (sensorsTaskRun n s).2.homeLocation = seedHomeLocation s.homeLocation := by
  constructor
  · show ((sensorsStartupEvents s
        ++ (sensorsLoop n (sensorsStartupState s)).1).filter isMagSet) = _
    rw [List.filter_append, sensorsLoop_filter_magSet]
    rfl
  · show (sensorsLoop n (sensorsStartupState s)).2.homeLocation = _
    rw [sensorsLoop_homeLocation]
    rfl

/-- C7 counterexample: when the scheduler fails to create the task,
`SensorsStart` still returns 0, which is the success code of its documented
contract ("0 on success or -1 if initialisation failed"), not a failure
code. -/
theorem sensorsStart_ignores_spawn_failure_counterexample :
    (SensorsStart false).2 = 0 ∧ (0 : Int) ≠ -1 := by decide

/-- C7 (amended): `SensorsStart` spawns the periodic task, registers it
with the task monitor, registers the watchdog flag, and returns 0
unconditionally — the result of `xTaskCreate` is ignored, so a task-spawn
failure is not surfaced as a failure code. -/
theorem sensorsStart_spawns_and_returns_zero (spawnOk : Bool) :
    SensorsStart spawnOk =
      ([StartEvent.xTaskCreate "Sensors" (STACK_SIZE_BYTES / 4),
        StartEvent.taskMonitorAdd,
        StartEvent.wdgRegisterFlag], 0) := rfl

/-- C8 counterexample: the end-of-cycle suspension is `vTaskDelay`, a
relative 20 ms delay measured from the end of the cycle's work, not a wait
until the next 20-unit period boundary: starting at time 0 with 5 ms of
work per cycle, the second cycle begins at time 25, while the next period
boundary is at time 20. -/
theorem delay_not_period_boundary_counterexample :
    (sensorsTimedRun 5 1 { timeMs := 0, st := zeroUAVState }).timeMs = 25 ∧
    specPeriodBoundaryStart 0 1 = 20 ∧
    (25 : Nat) ≠ 20 ∧
    SensorEvent.taskDelay 20 ∈ sensorsCycleEvents zeroUAVState := by decide

/-- C8 (amended): at the end of each cycle the task sleeps a relative
delay of 20 time-units measured from the end of the cycle's work, so `n`
cycles advance the clock by exactly `n * (work + 20)`; the 20-unit delay is
a constant distinct from the `SENSOR_PERIOD` scheduling constant (2). -/
theorem sensors_cycle_relative_delay (w n : Nat) (ts : TimedState) :
    (sensorsTimedRun w n ts).timeMs = ts.timeMs + n * (w + sensorDelayMs) ∧
    sensorDelayMs = 20 ∧
    SENSOR_PERIOD = 2 :=
  ⟨sensorsTimedRun_timeMs w n ts, rfl, rfl⟩

/-- C9: each cycle's event trace contains exactly one watchdog refresh,
positioned after all five record publishes and before the end-of-cycle
suspension. -/
theorem watchdog_once_after_publishes_before_delay (s : UAVState) :
    (∃ a g b p m, sensorsCycleEvents s =
      [SensorEvent.accelsSet a, SensorEvent.gyrosSet g, SensorEvent.baroSet b,
       SensorEvent.gpsSet p, SensorEvent.magSet m, SensorEvent.wdgUpdate,
       SensorEvent.taskDelay sensorDelayMs]) ∧
    (sensorsCycleEvents s).countP isWdgUpdate = 1 :=
  ⟨⟨_, _, _, _, _, rfl⟩, rfl⟩

/-- C10: the one-time Home Location seeding overwrites only Latitude,
Longitude, Altitude, Be[0..2] and Set; every other field of the record is
written back unchanged. -/
theorem homeLocation_seed_preserves_other_fields (h : HomeLocationData) :
    seedHomeLocation h =
      { Latitude := 0, Longitude := 0, Altitude := 0,
        Be0 := 26000, Be1 := 400, Be2 := 40000, Set := true,
        otherFields := h.otherFields } := rfl
